import Mathlib

/-!
# Verification of the dcmtrans pixel-transform pipeline and series reconstruction

Shallow embedding of the `dcmtrans` repository
(`src/dcmtrans/trans_method.py`, `voi_trans.py`, `modality_trans.py`,
`pi_trans.py`, `dcmtrans.py`, `base.py`, `ct_window.py`,
`reconstruction.py`) in Lean 4, together with theorems settling the
specification claims.

Modelling conventions:
* Python / numpy floating point numbers are modelled by `ℚ` (the claims under
  study concern exact formulas, branch conditions and dtype bookkeeping, not
  float rounding).
* numpy arrays are modelled by `NPArray`: a dtype tag plus the flat list of
  element values.
* Python exceptions are modelled by the `PyErr` type; fallible functions
  return `Except PyErr _`.
* `np.exp` is an external library function whose exact value is irrelevant to
  every claim; functions that call it take an explicit `expf : ℚ → ℚ`
  parameter standing for it.
-/

namespace Dcmtrans

/-- numpy dtypes that occur in the pipeline.  Integer dtypes carry C-style
cast semantics (truncation toward zero, wraparound on overflow);
`float64` values are modelled exactly by `ℚ`. -/
inductive DType where
  | uint8 | int16 | uint16 | int32 | int64 | float64
deriving DecidableEq, Repr

/-- Smallest representable value of a dtype (0 for `float64`, unused there). -/
def dtypeMin : DType → ℤ
  | .uint8 => 0
  | .int16 => -32768
  | .uint16 => 0
  | .int32 => -2147483648
  | .int64 => -9223372036854775808
  | .float64 => 0

/-- Largest representable value of a dtype (0 for `float64`, unused there). -/
def dtypeMax : DType → ℤ
  | .uint8 => 255
  | .int16 => 32767
  | .uint16 => 65535
  | .int32 => 2147483647
  | .int64 => 9223372036854775807
  | .float64 => 0

/-- Truncation toward zero, C-cast style (`float -> int`). -/
def pytrunc (q : ℚ) : ℤ := if q < 0 then ⌈q⌉ else ⌊q⌋

/-- Wrap an integer into the inclusive range `[lo, hi]` (two's-complement
overflow behaviour of numpy integer casts). -/
def intWrap (lo hi : ℤ) (i : ℤ) : ℤ := (i - lo) % (hi - lo + 1) + lo

/-- `np.ndarray.astype` on a single element. -/
def astype (dt : DType) (q : ℚ) : ℚ :=
  match dt with
  | .float64 => q
  | _ => (intWrap (dtypeMin dt) (dtypeMax dt) (pytrunc q) : ℚ)

/-- `np.clip(x, lo, hi)` = `min (max x lo) hi` on each element. -/
def clipQ (lo hi q : ℚ) : ℚ := min (max q lo) hi

/-- A (flattened) numpy array: dtype tag plus element values. -/
structure NPArray where
  dtype : DType
  data : List ℚ
deriving DecidableEq, Repr

/-! ## trans_method.py -/

/-- `trans_method.do_nothing`. -/
def do_nothing (image : NPArray) : NPArray := image

/-- `trans_method.linear_trans`: `image * slope + intercept`.
`slope`/`intercept` come from DICOM DS fields (python floats), so numpy
promotes the result to `float64`. -/
def linear_trans (image : NPArray) (intercept slope : ℚ) : NPArray :=
  ⟨DType.float64, image.data.map (fun v => v * slope + intercept)⟩

/-- The float-path value computed by `trans_method.window_linear_trans` for a
single element, before the final clip and dtype cast: the `np.where` chain. -/
def window_linear_map (window_center window_width : ℚ) (depth : ℤ) (v : ℚ) : ℚ :=
  if v ≤ window_center - 1/2 - (window_width - 1)/2 then 0
  else if v > window_center - 1/2 + (window_width - 1)/2 then (depth : ℚ) - 1
  else ((v - (window_center - 1/2)) / (window_width - 1) + 1/2) * ((depth : ℚ) - 1)

/-- `trans_method.window_linear_trans`: computes in float, clips to
`[0, depth-1]`, casts back to the input dtype. -/
def window_linear_trans (image : NPArray) (window_center window_width : ℚ)
    (depth : ℤ) : NPArray :=
  ⟨image.dtype,
   image.data.map (fun v =>
     astype image.dtype (clipQ 0 ((depth : ℚ) - 1) (window_linear_map window_center window_width depth v)))⟩

/-- The float-path value computed by `trans_method.window_linear_exact_trans`
for a single element, before the final clip and dtype cast. -/
def window_linear_exact_map (window_center window_width : ℚ) (depth : ℤ) (v : ℚ) : ℚ :=
  if v ≤ window_center - window_width/2 then 0
  else if v > window_center + window_width/2 then (depth : ℚ) - 1
  else (v - window_center) / window_width * ((depth : ℚ) - 1)

/-- `trans_method.window_linear_exact_trans`. -/
def window_linear_exact_trans (image : NPArray) (window_center window_width : ℚ)
    (depth : ℤ) : NPArray :=
  ⟨image.dtype,
   image.data.map (fun v =>
     astype image.dtype (clipQ 0 ((depth : ℚ) - 1) (window_linear_exact_map window_center window_width depth v)))⟩

/-- `trans_method.window_sigmoid_trans`.  Note that, unlike the two linear
transforms, the source returns `(depth - 1) / (1 + np.exp(-4*(image - c)/w))`
directly: no clip and no cast back to the input dtype, so the result is a
`float64` array.  `expf` stands for `np.exp`. -/
def window_sigmoid_trans (expf : ℚ → ℚ) (image : NPArray)
    (window_center window_width : ℚ) (depth : ℤ) : NPArray :=
  ⟨DType.float64,
   image.data.map (fun v =>
     ((depth : ℚ) - 1) / (1 + expf ((-4) * (v - window_center) / window_width)))⟩

/-! ## Python errors -/

/-- A message emitted by the reconstruction walk (`msglist` entries of
`_recon_ct`) or a plain assertion text. -/
inductive RecMsg where
  | text (s : String)
  | indexJump (i j : ℤ)
  | notAligned (i j : ℤ)
deriving DecidableEq, Repr

/-- Python exceptions raised by the embedded code. -/
inductive PyErr where
  | assertionError (msgs : List RecMsg)
  | indexError (msg : String)
  | typeError (msg : String)
  | valueError (msg : String)
  | notImplementedError (msg : String)
  | attributeError (msg : String)
deriving DecidableEq, Repr

/-! ## The slice record (pydicom `FileDataset` attribute bag) -/

/-- An embedded modality/VOI LUT sequence item.  The byte-buffer form of
`LUTDescriptor`/`LUTData` (decoded in the source with `np.frombuffer`) is
modelled in already-decoded integer form; `none` models an absent field. -/
structure LUTSeq where
  LUTDescriptor : Option (List ℤ) := none
  LUTData : Option (List ℚ) := none
  ModalityLUTType : Option String := none
deriving DecidableEq, Repr

/-- The per-slice metadata record.  Every field is optional; `none` models an
absent DICOM attribute (`getattr`/`.get` returning `None`). -/
structure DicomRecord where
  InstanceNumber : Option ℤ := none
  Modality : Option String := none
  ImageOrientationPatient : Option (List ℚ) := none
  ImagePositionPatient : Option (List ℚ) := none
  Rows : Option ℤ := none
  Columns : Option ℤ := none
  PixelSpacing : Option (List ℚ) := none
  ContrastBolusAgent : Option String := none
  SeriesDescription : Option String := none
  SliceThickness : Option ℚ := none
  PatientPosition : Option String := none
  ViewPosition : Option String := none
  BitsStored : Option ℤ := none
  PixelRepresentation : Option ℤ := none
  RescaleIntercept : Option ℚ := none
  RescaleSlope : Option ℚ := none
  RescaleType : Option String := none
  WindowCenter : Option ℚ := none
  WindowWidth : Option ℚ := none
  VOILUTFunction : Option String := none
  VOILUTSequence : Option LUTSeq := none
  ModalityLUTSequence : Option LUTSeq := none
  PhotometricInterpretation : Option String := none
deriving DecidableEq, Repr

/-! ## ct_window.py -/

/-- `ct_window.get_window` (imported in `voi_trans.py` as `get_ct_window`):
the preset body-part window table in Hounsfield Units, with default
`(0, 2000)` for unknown names. -/
def get_ct_window (body_part : String) : ℚ × ℚ :=
  if body_part = "abdomen" then (60, 400)
  else if body_part = "angio" then (300, 600)
  else if body_part = "bone" then (300, 1500)
  else if body_part = "brain" then (40, 80)
  else if body_part = "mediastinum" then (40, 400)
  else if body_part = "lung" then (-750, 1500)
  else (0, 2000)

/-! ## voi_trans.py -/

/-- `VOITransManager.get_mode` (`voi_classifier`).  Note the final branch of
the source returns the string `'LINEAR'`, not `None`. -/
def voi_get_mode (r : DicomRecord) : Option String :=
  if r.VOILUTSequence.isSome ∧ r.WindowCenter.isNone then some "TABLE"
  else if r.WindowCenter.isSome then
    match r.VOILUTFunction with
    | none => some "LINEAR"
    | some f => some f
  else some "LINEAR"

/-- A `window` argument of the pipeline: either a preset-name string or an
explicit `{'window_center': _, 'window_width': _}` dict (whose keys may be
absent). -/
inductive WindowArg where
  | str (s : String)
  | dict (wc ww : Option ℚ)
deriving DecidableEq, Repr

/-- `voi_trans._get_window`: resolve the window center and width from the
window argument, the record, or the bit-depth-derived default.  The
`2 ** (BitsStored - 1)` fallback raises `TypeError` when `BitsStored` is
absent (`2 ** (None - 1)` in python). -/
def _get_window (r : DicomRecord) (window : WindowArg) (unit : Option String) :
    Except PyErr (ℚ × ℚ) :=
  let resolved : Except PyErr (Option ℚ × Option ℚ) :=
    match window with
    | .dict wc ww => .ok (wc, ww)
    | .str s =>
      if s = "default" ∨ unit = none then
        match r.WindowCenter, r.WindowWidth with
        | some wc, some ww => .ok (some wc, some ww)
        | _, _ =>
          match r.BitsStored with
          | some b => .ok (some ((2 : ℚ) ^ (b - 1)), some ((2 : ℚ) ^ b))
          | none => .error (.typeError "unsupported operand type for ** : NoneType")
      else if unit = some "HU" ∨ unit = some "Hounsfield Unit" then
        .ok (some (get_ct_window s).1, some (get_ct_window s).2)
      else
        match r.WindowCenter, r.WindowWidth with
        | some wc, some ww => .ok (some wc, some ww)
        | _, _ => .ok (none, none)
  match resolved with
  | .error e => .error e
  | .ok (some wc, some ww) => .ok (wc, ww)
  | .ok (_, _) => .error (.valueError "Either window center or window width not found")

/-- `voi_trans.voi_linear_trans`. -/
def voi_linear_trans (r : DicomRecord) (image : NPArray) (depth : ℤ)
    (window : WindowArg) (unit : Option String) : Except PyErr NPArray :=
  match _get_window r window unit with
  | .error e => .error e
  | .ok (wc, ww) => .ok (window_linear_trans image wc ww depth)

/-- `voi_trans.voi_linear_exact_trans`. -/
def voi_linear_exact_trans (r : DicomRecord) (image : NPArray) (depth : ℤ)
    (window : WindowArg) (unit : Option String) : Except PyErr NPArray :=
  match _get_window r window unit with
  | .error e => .error e
  | .ok (wc, ww) => .ok (window_linear_exact_trans image wc ww depth)

/-- `voi_trans.voi_sigmoid_trans` (`expf` stands for `np.exp`). -/
def voi_sigmoid_trans (expf : ℚ → ℚ) (r : DicomRecord) (image : NPArray)
    (depth : ℤ) (window : WindowArg) (unit : Option String) : Except PyErr NPArray :=
  match _get_window r window unit with
  | .error e => .error e
  | .ok (wc, ww) => .ok (window_sigmoid_trans expf image wc ww depth)

/-- Integer indexing of a numpy 1-D array (`lut_data[image]`): negative
indices count from the end, out-of-range indices raise `IndexError`. -/
def pyListGet (l : List ℚ) (i : ℤ) : Except PyErr ℚ :=
  if h : 0 ≤ i ∧ i.toNat < l.length then .ok (l.get ⟨i.toNat, h.2⟩)
  else if h' : i < 0 ∧ (i + l.length).toNat < l.length ∧ 0 ≤ i + l.length then
    .ok (l.get ⟨(i + l.length).toNat, h'.2.1⟩)
  else .error (.indexError "index out of range")

/-- `trans_method.lut_trans`: shift by `descriptor[1]`, clamp into
`[0, descriptor[0] - 1]` (two sequential masked assignments), truncate to
int, index into the scaled LUT data.  The result of `lut_data * scale_factor`
with the float `scale_factor` of the VOI path is a `float64` array. -/
def lut_trans (image : NPArray) (desc : List ℤ) (data : List ℚ) (scale : ℚ) :
    Except PyErr NPArray :=
  match desc.get? 1, desc.get? 0 with
  | some d1, some d0 =>
    let scaled := data.map (· * scale)
    let idxs := image.data.map (fun v =>
      let v1 := v - (d1 : ℚ)
      let v2 := if v1 ≤ 0 then 0 else v1
      let v3 := if v2 ≥ (d0 : ℚ) then ((d0 : ℚ) - 1) else v2
      pytrunc v3)
    match idxs.mapM (pyListGet scaled) with
    | .error e => .error e
    | .ok vals => .ok ⟨DType.float64, vals⟩
  | _, _ => .error (.indexError "list index out of range")

/-- `voi_trans.voi_lut_trans`.  The byte-buffer decode branches of the source
(`np.frombuffer` with representation-driven signedness) are not modelled: the
LUT fields carry already-decoded values, and an absent descriptor or data
raises like the corresponding python access on `None` would. -/
def voi_lut_trans (r : DicomRecord) (image : NPArray) (depth : ℤ)
    (_window : WindowArg) (_unit : Option String) : Except PyErr NPArray :=
  let seq := r.VOILUTSequence.getD {}
  match seq.LUTDescriptor with
  | none => .error (.typeError "NoneType object is not subscriptable")
  | some desc =>
    match seq.LUTData with
    | none => .error (.typeError "unsupported operand type for * : NoneType")
    | some data =>
      let bits := r.BitsStored.getD 12
      let scale := (depth : ℚ) / (2 : ℚ) ^ bits
      lut_trans image desc data scale

/-! ## modality_trans.py -/

/-- `ModalityTransManager.get_mode` (`modality_classifier`). -/
def modality_get_mode (r : DicomRecord) : Option String :=
  if r.ModalityLUTSequence.isSome ∧ r.RescaleIntercept.isNone then some "TABLE"
  else if r.RescaleIntercept.isSome then some "LINEAR"
  else none

/-- `modality_trans.modality_linear_trans`: rescale by slope and intercept;
the unit falls back to `"HU"` for CT when `RescaleType` is absent.  Arithmetic
with an absent slope or intercept (`None`) raises `TypeError` in python. -/
def modality_linear_trans (r : DicomRecord) (image : NPArray) :
    Except PyErr (NPArray × Option String) :=
  match r.RescaleIntercept, r.RescaleSlope with
  | some intercept, some slope =>
    let unit :=
      match r.RescaleType with
      | some u => some u
      | none => if (r.Modality.getD "").trim = "CT" then some "HU" else none
    .ok (linear_trans image intercept slope, unit)
  | _, _ => .error (.typeError "unsupported operand type: NoneType")

/-- `modality_trans.modality_lut_trans`.  As for the VOI LUT, byte-buffer
decoding is not modelled; `ModalityLUTSequence` absent raises like
`None[0]`. -/
def modality_lut_trans (r : DicomRecord) (image : NPArray) :
    Except PyErr (NPArray × Option String) :=
  match r.ModalityLUTSequence with
  | none => .error (.typeError "NoneType object is not subscriptable")
  | some seq =>
    match seq.LUTDescriptor with
    | none => .error (.typeError "NoneType object is not subscriptable")
    | some desc =>
      match seq.LUTData with
      | none => .error (.typeError "unsupported operand type for * : NoneType")
      | some data =>
        match lut_trans image desc data 1 with
        | .error e => .error e
        | .ok arr => .ok (arr, seq.ModalityLUTType)

/-- `dcmtrans.modality_trans`: classify, dispatch, or fall through to the
identity with no unit. -/
def modality_trans (r : DicomRecord) (image : NPArray) :
    Except PyErr (Option String × NPArray × Option String) :=
  match modality_get_mode r with
  | some "LINEAR" =>
    match modality_linear_trans r image with
    | .error e => .error e
    | .ok (arr, unit) => .ok (some "LINEAR", arr, unit)
  | some "TABLE" =>
    match modality_lut_trans r image with
    | .error e => .error e
    | .ok (arr, unit) => .ok (some "TABLE", arr, unit)
  | m => .ok (m, do_nothing image, none)

/-! ## pi_trans.py (grayscale paths used by the orchestrator) -/

/-- `PITransManager.get_mode` (`pi_classifier`): the verbatim
`PhotometricInterpretation` code. -/
def pi_get_mode (r : DicomRecord) : Option String := r.PhotometricInterpretation

/-- `pi_trans.pi_monochrome1`: `-image + depth - 1`. -/
def pi_monochrome1 (image : NPArray) (depth : ℤ) : NPArray :=
  ⟨image.dtype, image.data.map (fun v => -v + (depth : ℚ) - 1)⟩

/-- `pi_trans.pi_monochrome2`: identity. -/
def pi_monochrome2 (image : NPArray) (_depth : ℤ) : NPArray := image

/-- `dcmtrans.pi_trans` via `dcmtrans.get_pi_trans_func`: the orchestrator's
local dispatch handles only `MONOCHROME1`/`MONOCHROME2`; any other (or
absent) photometric interpretation falls through to `do_nothing`.  None of
these paths can raise. -/
def pi_trans_local (r : DicomRecord) (image : NPArray) (depth : ℤ) :
    Option String × NPArray :=
  match pi_get_mode r with
  | some "MONOCHROME1" => (some "MONOCHROME1", pi_monochrome1 image depth)
  | some "MONOCHROME2" => (some "MONOCHROME2", pi_monochrome2 image depth)
  | m => (m, do_nothing image)

/-- `dcmtrans.voi_trans` via `dcmtrans.get_voi_trans_func`: classify, then
dispatch on the mode string.  The returned mode is computed before the
handler runs; the handler's exception (if any) is carried in the second
component. -/
def voi_trans (expf : ℚ → ℚ) (r : DicomRecord) (image : NPArray) (depth : ℤ)
    (window : WindowArg) (unit : Option String) :
    Option String × Except PyErr NPArray :=
  match voi_get_mode r with
  | some "LINEAR" => (some "LINEAR", voi_linear_trans r image depth window unit)
  | some "LINEAR_EXACT" => (some "LINEAR_EXACT", voi_linear_exact_trans r image depth window unit)
  | some "SIGMOID" => (some "SIGMOID", voi_sigmoid_trans expf r image depth window unit)
  | some "TABLE" => (some "TABLE", voi_lut_trans r image depth window unit)
  | m => (m, .ok (do_nothing image))

/-! ## dcmtrans.py — pipeline orchestrator -/

/-- The metadata dict returned by `dcmtrans`:
`{'modality': _, 'modality_unit': _, 'voi': _, 'pi': _}`. -/
structure TransMeta where
  modality : Option String
  modality_unit : Option String
  voi : Option String
  pi : Option String
deriving DecidableEq, Repr

/-- The loop state of `dcmtrans`: the two per-window result lists plus the
`voi_mode`/`pi_mode` variables (updated only when the corresponding stage
call returns). -/
structure LoopState where
  images : List (Option NPArray)
  errors : List (Option PyErr)
  voi_mode : Option String
  pi_mode : Option String
deriving Repr

/-- The per-window body of the `dcmtrans` loop, run on a copy of the
modality-stage output: VOI stage then PI stage, with any exception caught and
converted into a `(None, exception)` pair. -/
def perWindow (expf : ℚ → ℚ) (r : DicomRecord) (timg : NPArray) (depth : ℤ)
    (unit : Option String) (w : WindowArg) : Option NPArray × Option PyErr :=
  match (voi_trans expf r timg depth w unit).2 with
  | .error e => (none, some e)
  | .ok v1 => (some (pi_trans_local r v1 depth).2, none)

/-- The `for w in window` loop of `dcmtrans`. -/
def dcmtransLoop (expf : ℚ → ℚ) (r : DicomRecord) (timg : NPArray) (depth : ℤ)
    (unit : Option String) : List WindowArg → LoopState → LoopState
  | [], s => s
  | w :: ws, s =>
    let s' :=
      match voi_trans expf r timg depth w unit with
      | (_, .error e) =>
        { s with images := s.images ++ [none], errors := s.errors ++ [some e] }
      | (vmode, .ok v1) =>
        let (pmode, v2) := pi_trans_local r v1 depth
        { images := s.images ++ [some v2], errors := s.errors ++ [none],
          voi_mode := vmode, pi_mode := pmode }
    dcmtransLoop expf r timg depth unit ws s'

/-- `dcmtrans.dcmtrans`: modality stage once (exceptions there propagate),
then the per-window loop.  Iterating over `window=None` raises `TypeError`
('NoneType' object is not iterable) before any per-window error isolation. -/
def dcmtrans (expf : ℚ → ℚ) (r : DicomRecord) (image_data : NPArray)
    (depth : ℤ) (window : Option (List WindowArg)) :
    Except PyErr (List (Option NPArray) × List (Option PyErr) × TransMeta) :=
  match modality_trans r image_data with
  | .error e => .error e
  | .ok (mod_mode, t_image_data, unit) =>
    match window with
    | none => .error (.typeError "argument of type NoneType is not iterable")
    | some ws =>
      let s := dcmtransLoop expf r t_image_data depth unit ws
        ⟨[], [], none, none⟩
      .ok (s.images, s.errors,
        ⟨mod_mode, unit, s.voi_mode, s.pi_mode⟩)

/-! ## pi_trans.py — YBR_RCT (multi-channel images) -/

/-- A numpy array whose last axis is the channel axis: dtype, channel count
(`shape[-1]`), and the list of pixels (each a list of channel values). -/
structure NPImage where
  dtype : DType
  lastDim : ℕ
  pixels : List (List ℚ)
deriving DecidableEq, Repr

/-- `pi_trans.pi_ybr_rct`: the reversible color transform decoder.  After the
shape check, the source computes `G = Y - floor((Cb + Cr)/4)` and stacks
`[G, Cr + G, Cb + G]` along the last axis, clips to `[0, 256]` and casts back
to the input dtype. -/
def pi_ybr_rct (_r : DicomRecord) (image_data : NPImage) (_depth : ℤ) :
    Except PyErr NPImage :=
  if image_data.lastDim ≠ 3 then
    .error (.valueError "image_data should has shape (...,H,W,3)")
  else
    .ok ⟨image_data.dtype, 3,
      image_data.pixels.map (fun p =>
        let y := p.getD 0 0
        let cb := p.getD 1 0
        let cr := p.getD 2 0
        let g : ℚ := y - ((⌊(cb + cr) / 4⌋ : ℤ) : ℚ)
        [astype image_data.dtype (clipQ 0 256 g),
         astype image_data.dtype (clipQ 0 256 (cr + g)),
         astype image_data.dtype (clipQ 0 256 (cb + g))])⟩

/-- Modelled from the spec: the forward `RGB → YBR_RCT` encoding
`Y = floor((R + 2G + B)/4), Cb = B - G, Cr = R - G` (the source repository
contains only the decoder; the spec's round-trip property quantifies over
this standard forward transform). -/
def ybr_rct_encode_spec (r g b : ℤ) : ℤ × ℤ × ℤ :=
  (⌊((r : ℚ) + 2 * g + b) / 4⌋, b - g, r - g)

/-! ## base.py — transform registry -/

/-- Python-dict assignment `m[k] = v`: overwrite in place if the key exists,
else append. -/
def pyDictSet {κ β : Type} [DecidableEq κ] (m : List (κ × β)) (k : κ) (v : β) :
    List (κ × β) :=
  if m.any (fun p => p.1 = k) then
    m.map (fun p => if p.1 = k then (k, v) else p)
  else m ++ [(k, v)]

/-- Python-dict lookup `m.get(k)`. -/
def pyDictGet {κ β : Type} [DecidableEq κ] (m : List (κ × β)) (k : κ) : Option β :=
  (m.find? (fun p => p.1 = k)).map (·.2)

/-- `BaseTransManager`'s mutable state: the mode→handler table plus the
retired/experimental annotation tables. -/
structure TransRegistry (α : Type) where
  collection : List (String × α) := []
  retired : List (String × Bool) := []
  experimental : List (String × Bool) := []
deriving Repr

/-- `BaseTransManager.register(mode, retired, skip_if_exists, experimental)`
applied to a handler `func`: returns the updated registry and the warnings
emitted.  An existing mode is either skipped (registry unchanged) or
overwritten, each with its own warning. -/
def registryRegister {α : Type} (reg : TransRegistry α) (mode : String)
    (retiredFlag skipIfExists experimentalFlag : Bool) (func : α) :
    TransRegistry α × List String :=
  if (pyDictGet reg.collection mode).isSome then
    if skipIfExists then
      (reg, ["Mode \"" ++ mode ++ "\" was already registered. Skip"])
    else
      (⟨pyDictSet reg.collection mode func,
        pyDictSet reg.retired mode retiredFlag,
        pyDictSet reg.experimental mode experimentalFlag⟩,
       ["Mode \"" ++ mode ++ "\" was already registered. Overwrite"])
  else
    (⟨pyDictSet reg.collection mode func,
      pyDictSet reg.retired mode retiredFlag,
      pyDictSet reg.experimental mode experimentalFlag⟩, [])

/-! ## reconstruction.py -/

/-- Insert into a sorted list of integers (helper for `list.sort()`). -/
def insertSorted (x : ℤ) : List ℤ → List ℤ
  | [] => [x]
  | y :: ys => if x ≤ y then x :: y :: ys else y :: insertSorted x ys

/-- Python `list.sort()` on integers (ascending). -/
def sortInts (l : List ℤ) : List ℤ := l.foldr insertSorted []

/-- Python `round()` (banker's rounding: halves go to the even integer). -/
def pyRound (q : ℚ) : ℤ :=
  let f := ⌊q⌋
  let r := q - f
  if r < 1/2 then f
  else if r > 1/2 then f + 1
  else if f % 2 = 0 then f else f + 1

/-- `reconstruction.classify`: `getattr(dcmObj, 'Modality', None)`. -/
def classify (r : DicomRecord) : Option String := r.Modality

/-- Step 1 of `reconstruct_series`: the `InstanceNumber -> key` dict
comprehension (python dict semantics: later duplicates overwrite). -/
def buildIndexMap (dicom_dict : List (ℕ × DicomRecord)) : List (ℤ × ℕ) :=
  dicom_dict.foldl
    (fun m kv =>
      match kv.2.InstanceNumber with
      | some i => pyDictSet m i kv.1
      | none => m)
    []

/-- The `InstanceNumber -> record` dict built from an index map
(`{i: dicom_dict.get(unikey) for i, unikey in index_map.items()}`). -/
def buildIndexData (dicom_dict : List (ℕ × DicomRecord)) (im : List (ℤ × ℕ)) :
    List (ℤ × DicomRecord) :=
  im.filterMap (fun p => (pyDictGet dicom_dict p.2).map (fun r => (p.1, r)))

/-- The determinant-like cross term of `_recon_ct` step 2 comparing the
orientation vectors of the first two instances. -/
def iopCross (iop1 iop2 : List ℚ) : ℚ :=
  (iop1.getD 0 0 * iop2.getD 0 0 + iop1.getD 1 0 * iop2.getD 1 0 + iop1.getD 2 0 * iop2.getD 2 0)
    * (iop1.getD 3 0 * iop2.getD 3 0 + iop1.getD 4 0 * iop2.getD 4 0 + iop1.getD 5 0 * iop2.getD 5 0)
  - (iop1.getD 0 0 * iop2.getD 3 0 + iop1.getD 1 0 * iop2.getD 4 0 + iop1.getD 2 0 * iop2.getD 5 0)
    * (iop1.getD 3 0 * iop2.getD 0 0 + iop1.getD 4 0 * iop2.getD 1 0 + iop1.getD 5 0 * iop2.getD 2 0)

/-- `getattr(dcmX, 'ImageOrientationPatient', None)` with the
`'ImageOrientationPatient not found'` assertion of `_recon_ct` step 2. -/
def getIopOf (r? : Option DicomRecord) : Except PyErr (List ℚ) :=
  match r?.bind (·.ImageOrientationPatient) with
  | none => .error (.assertionError [.text "ImageOrientationPatient not found"])
  | some l => .ok l

/-- `_recon_ct` step 2: compare the orientation vectors of the first two
instances; when the cross term is near-degenerate (`< 0.1`), discard the
first instance and re-sort the remaining indices. -/
def discardStep (im : List (ℤ × ℕ)) (idd : List (ℤ × DicomRecord)) (il : List ℤ) :
    Except PyErr (List (ℤ × ℕ) × List (ℤ × DicomRecord) × List ℤ) := do
  match il with
  | i0 :: i1 :: _ =>
    let iop1 ← getIopOf (pyDictGet idd i0)
    let iop2 ← getIopOf (pyDictGet idd i1)
    if |iopCross iop1 iop2| < 1/10 then
      let im' := im.filter (fun p => p.1 ≠ i0)
      let idd' := idd.filter (fun p => p.1 ≠ i0)
      .ok (im', idd', sortInts (im'.map (·.1)))
    else
      .ok (im, idd, il)
  | _ => .error (.indexError "list index out of range")

/-- `_recon_ct` step 3.1/3.2: all instances must share `Rows`, `Columns` and
`PixelSpacing` (rounded to 0.001 mm).  A record lacking one of these
attributes raises `AttributeError` (plain attribute access in the source).
Both pixel-spacing components reuse the same message text, as in the
source. -/
def sizeChecks (idd : List (ℤ × DicomRecord)) : Except PyErr Unit :=
  match idd.mapM (fun p => p.2.Columns) with
  | none => .error (.attributeError "Columns")
  | some cols =>
    if cols.dedup.length > 1 then .error (.assertionError [.text "Columns of images mismatch"])
    else
      match idd.mapM (fun p => p.2.Rows) with
      | none => .error (.attributeError "Rows")
      | some rows =>
        if rows.dedup.length > 1 then .error (.assertionError [.text "Rows of images mismatch"])
        else
          match idd.mapM (fun p => p.2.PixelSpacing) with
          | none => .error (.attributeError "PixelSpacing")
          | some pss =>
            if ((pss.map (fun ps => pyRound (ps.getD 0 0 * 1000))).dedup.length > 1) then
              .error (.assertionError [.text "PixelSpacing of columns mismatch"])
            else if ((pss.map (fun ps => pyRound (ps.getD 1 0 * 1000))).dedup.length > 1) then
              .error (.assertionError [.text "PixelSpacing of columns mismatch"])
            else .ok ()

/-- The `iop_list` comprehension of `_recon_ct` (plain attribute access:
an absent orientation raises `AttributeError`). -/
def extractIops (idd : List (ℤ × DicomRecord)) (il : List ℤ) :
    Except PyErr (List (List ℚ)) :=
  match il.mapM (fun i => (pyDictGet idd i).bind (·.ImageOrientationPatient)) with
  | none => .error (.attributeError "ImageOrientationPatient")
  | some l => .ok l

/-- The `ipp_list` comprehension of `_recon_ct`. -/
def extractIpps (idd : List (ℤ × DicomRecord)) (il : List ℤ) :
    Except PyErr (List (List ℚ)) :=
  match il.mapM (fun i => (pyDictGet idd i).bind (·.ImagePositionPatient)) with
  | none => .error (.attributeError "ImagePositionPatient")
  | some l => .ok l

/-- Displacement vector between two position vectors. -/
def sub3 (p1 p0 : List ℚ) : List ℚ :=
  [p1.getD 0 0 - p0.getD 0 0, p1.getD 1 0 - p0.getD 1 0, p1.getD 2 0 - p0.getD 2 0]

/-- Squared magnitude of a displacement vector.  The source works with
`spacing = sqrt(sumSq)`; every branch condition on `spacing` is encoded here
on its square (`|spacing| < 1e-4  ⟺  sumSq < 1e-8`, etc.), which is exact
since `spacing ≥ 0`. -/
def sumSq3 (dp : List ℚ) : ℚ :=
  dp.getD 0 0 ^ 2 + dp.getD 1 0 ^ 2 + dp.getD 2 0 ^ 2

/-- The triple-product term `tmp_dot` of `_recon_ct` step 3. -/
def tripleDot (dp iop : List ℚ) : ℚ :=
  dp.getD 0 0 * iop.getD 1 0 * iop.getD 5 0
  + dp.getD 1 0 * iop.getD 2 0 * iop.getD 3 0
  + dp.getD 2 0 * iop.getD 0 0 * iop.getD 4 0
  - dp.getD 0 0 * iop.getD 2 0 * iop.getD 4 0
  - dp.getD 1 0 * iop.getD 0 0 * iop.getD 5 0
  - dp.getD 2 0 * iop.getD 1 0 * iop.getD 3 0

/-- Outcome of one consecutive pair in the `_recon_ct` walk. -/
inductive PairRes where
  | jump (i j : ℤ)
  | skip
  | notAligned (i j : ℤ)
  | good (chir : Bool) (ssq : ℚ)
deriving DecidableEq, Repr

/-- One iteration of the `_recon_ct` walk over a consecutive pair of
(index, orientation, position) triples.  The alignment test
`abs(tmp_dot/spacing) < 0.99` is encoded on squares
(`tmp_dot² < 0.9801·sumSq`), and the chirality sign `tmp_dot/spacing > 0`
as `tmp_dot > 0` (valid since `spacing > 0` on this branch). -/
def pairRes (t0 t1 : ℤ × List ℚ × List ℚ) : PairRes :=
  if t1.1 - t0.1 ≠ 1 then .jump t0.1 t1.1
  else
    let dp := sub3 t1.2.2 t0.2.2
    let ssq := sumSq3 dp
    if ssq < 1/100000000 then .skip
    else
      let td := tripleDot dp t0.2.1
      if td ^ 2 < (9801/10000) * ssq then .notAligned t0.1 t1.1
      else .good (decide (0 < td)) ssq

/-- State accumulated by the `_recon_ct` walk: the `okay` flag, the message
list, the chirality sign list and the (squared) spacing list, each in pair
order. -/
structure WalkState where
  okay : Bool
  msgs : List RecMsg
  chir : List Bool
  ssq : List ℚ
deriving DecidableEq, Repr

/-- The `for i, ind1 in enumerate(index_list)` walk of `_recon_ct` step 3
over the zipped (index, orientation, position) triples. -/
def walkCT : List (ℤ × List ℚ × List ℚ) → WalkState
  | t0 :: t1 :: rest =>
    let s := walkCT (t1 :: rest)
    match pairRes t0 t1 with
    | .jump a b => ⟨false, .indexJump a b :: s.msgs, s.chir, s.ssq⟩
    | .skip => s
    | .notAligned a b => ⟨false, .notAligned a b :: s.msgs, s.chir, s.ssq⟩
    | .good c q => ⟨s.okay, s.msgs, c :: s.chir, q :: s.ssq⟩
  | _ => ⟨true, [], [], []⟩

/-- `_recon_ct` step 5: orientation class from the first orientation vector;
first match in `{axial, coronal, sagittal}` wins, default `"other"`. -/
def seriesLikeOf (iop : List ℚ) : String :=
  if |iop.getD 2 0| < 1/10 ∧ |iop.getD 5 0| < 1/10 then "axial"
  else if |iop.getD 1 0| < 1/10 ∧ |iop.getD 4 0| < 1/10 then "coronal"
  else if |iop.getD 0 0| < 1/10 ∧ |iop.getD 3 0| < 1/10 then "sagittal"
  else "other"

/-- The dictionary returned by `_recon_ct`.  `spacing_sq` holds the squares
of the entries of the source's `spacing_list` (see `sumSq3`); the source's
`spacing_slice` set is the set of the rounded square roots of these. -/
structure ReconCT where
  index_data : List (ℤ × DicomRecord)
  index_list : List ℤ
  index_map : List (ℤ × ℕ)
  chirality : ℤ
  spacing_sq : List ℚ
  series_like : String
  iop : List ℚ
  ipp_list : List (List ℚ)
deriving DecidableEq, Repr

/-- `reconstruction._recon_ct`.  Note the chirality computation: when no
valid pair exists the source sets `chirality = None` and then unconditionally
maps it through `1 if chirality else -1`, so the returned chirality is `-1`
in that case. -/
def _recon_ct (im : List (ℤ × ℕ)) (idd : List (ℤ × DicomRecord)) (il : List ℤ) :
    Except PyErr ReconCT := do
  let (im', idd', il') ← discardStep im idd il
  let _ ← sizeChecks idd'
  let iops ← extractIops idd' il'
  let ipps ← extractIpps idd' il'
  let ws := walkCT (il'.zip (iops.zip ipps))
  if ws.okay = false then .error (.assertionError ws.msgs)
  else if ws.chir.dedup.length > 1 then
    .error (.assertionError [.text "Direction (Chirality) of images mismatch"])
  else
    let chirality : ℤ := match ws.chir with | [] => -1 | c :: _ => if c then 1 else -1
    match iops with
    | [] => .error (.indexError "list index out of range")
    | iop0 :: _ => .ok ⟨idd', il', im', chirality, ws.ssq, seriesLikeOf iop0, iop0, ipps⟩

/-- The pydantic `RecInfo` result record (`spacing_slice_sq` carries squared
spacings, see `ReconCT.spacing_sq`). -/
structure RecInfo where
  index_list : List ℤ
  index_map : List (ℤ × ℕ)
  index_dicom_dict : List (ℤ × DicomRecord)
  series_like : Option String
  chirality : Option ℤ
  use_contrast : Bool
  description : String
  N_pixel_i : ℤ
  N_pixel_j : ℤ
  spacing_i : ℚ
  spacing_j : ℚ
  spacing_slice_sq : Option (List ℚ)
  slice_thickness : Option ℚ
  PixelSpacing : ℚ × ℚ
  ImageOrientationPatient : Option (List ℚ)
  ImagePositionPatient : Option (List (List ℚ))
  PatientPosition : Option String
deriving DecidableEq, Repr

/-- Steps 6–7 of `reconstruct_series`: the contrast flag from the first
ordered instance and the assembly of `RecInfo`.  `index_list[0]` on an empty
list raises `IndexError`. -/
def reconFinish (dicom_dict : List (ℕ × DicomRecord)) (index_map : List (ℤ × ℕ))
    (index_data : List (ℤ × DicomRecord)) (index_list : List ℤ)
    (chirality : Option ℤ) (spacing_slice_sq : Option (List ℚ))
    (series_like : Option String) (ipp : Option (List (List ℚ)))
    (iop : Option (List ℚ)) : Except PyErr RecInfo :=
  match index_list with
  | [] => .error (.indexError "list index out of range")
  | i0 :: _ =>
    let first := pyDictGet index_data i0
    let use_contrast :=
      match first.bind (·.ContrastBolusAgent) with
      | none => false
      | some s => decide (s ≠ "")
    let ps := (first.bind (·.PixelSpacing)).getD [1, 1]
    .ok
      { index_list := index_list
        index_map := index_map
        index_dicom_dict := buildIndexData dicom_dict index_map
        series_like := series_like
        chirality := chirality
        use_contrast := use_contrast
        description := (first.bind (·.SeriesDescription)).getD ""
        N_pixel_i := (first.bind (·.Rows)).getD (-1)
        N_pixel_j := (first.bind (·.Columns)).getD (-1)
        spacing_i := ps.getD 1 0
        spacing_j := ps.getD 0 0
        spacing_slice_sq := spacing_slice_sq
        slice_thickness := first.bind (·.SliceThickness)
        PixelSpacing := (ps.getD 0 0, ps.getD 1 0)
        ImageOrientationPatient := iop
        ImagePositionPatient := ipp
        PatientPosition := first.bind (·.PatientPosition) }

/-- Render the resolved modality into the `NotImplementedError` message
(`f'No reconstruction methods for {mod}'`; `None` prints as `"None"`). -/
def pyShowOptStr : Option String → String
  | none => "None"
  | some s => s

/-- `reconstruction.reconstruct_series`. -/
def reconstruct_series (dicom_dict : List (ℕ × DicomRecord))
    (modality : Option String) : Except PyErr RecInfo := do
  let index_map0 := buildIndexMap dicom_dict
  let index_data0 := buildIndexData dicom_dict index_map0
  let index_list0 := sortInts (index_map0.map (·.1))
  let mod ← (
    match modality with
    | some m => Except.ok (some m.toUpper)
    | none =>
      let mod_list := (dicom_dict.map (fun kv => classify kv.2)).dedup
      if mod_list.length > 1 then
        Except.error (.assertionError [.text "Multiple Modality were found"])
      else
        match mod_list with
        | [] => Except.error (.indexError "list index out of range")
        | m :: _ => Except.ok m)
  match mod with
  | some "CR" =>
    if index_list0.length = 0 then
      .error (.assertionError [.text "No instance was found"])
    else if index_list0.length > 1 then
      .error (.assertionError [.text "Modality \"CR\": Multiple instances were found."])
    else
      let dcmObj := pyDictGet index_data0 (index_list0.headD 0)
      reconFinish dicom_dict index_map0 index_data0 index_list0 none none
        (dcmObj.bind (·.ViewPosition)) none none
  | some "DX" =>
    if index_list0.length = 0 then
      .error (.assertionError [.text "No instance was found"])
    else if index_list0.length > 1 then
      .error (.assertionError [.text "Modality \"DX\": Multiple instances were found."])
    else
      reconFinish dicom_dict index_map0 index_data0 index_list0 none none
        none none none
  | some "CT" =>
    if index_list0.length < 2 then
      .error (.assertionError [.text "Cannot be reconstructed: Number of CT images less than 2"])
    else do
      let res ← _recon_ct index_map0 index_data0 index_list0
      reconFinish dicom_dict res.index_map res.index_data res.index_list
        (some res.chirality) (some res.spacing_sq) (some res.series_like)
        (some res.ipp_list) (some res.iop)
  | m => .error (.notImplementedError ("No reconstruction methods for " ++ pyShowOptStr m))

/-- The sorted instance indices of a series as first computed by
`reconstruct_series` (before any CT leading-slice discard). -/
def origSortedIndices (dicom_dict : List (ℕ × DicomRecord)) : List ℤ :=
  sortInts ((buildIndexMap dicom_dict).map (·.1))

/-! ## Concrete series used to settle the reconstruction claims -/

/-- A CT slice with instance number 1 at the origin. -/
def recC1a : DicomRecord :=
  { InstanceNumber := some 1, Modality := some "CT",
    ImageOrientationPatient := some [1, 0, 0, 0, 1, 0],
    ImagePositionPatient := some [0, 0, 0],
    Rows := some 512, Columns := some 512, PixelSpacing := some [1, 1] }

/-- A CT slice with instance number 2 at the same position as `recC1a`
(zero displacement, so the only consecutive pair is skipped with a
warning). -/
def recC1b : DicomRecord :=
  { recC1a with InstanceNumber := some 2 }

/-- A two-slice CT series in which no valid consecutive pair exists (the
single pair has displacement magnitude 0 < 1e-4 mm). -/
def exC1 : List (ℕ × DicomRecord) := [(0, recC1a), (1, recC1b)]

/-- First slice of the C8 counterexample series: instance number 1 with a
degenerate orientation relative to the next slice, so the leading-slice
discard of `_recon_ct` step 2 removes it. -/
def recC8a : DicomRecord :=
  { InstanceNumber := some 1, Modality := some "CT",
    ImageOrientationPatient := some [0, 0, 1, 0, 0, 1],
    ImagePositionPatient := some [5, 5, 5],
    Rows := some 512, Columns := some 512, PixelSpacing := some [1, 1] }

/-- Slice 3 of the C8 counterexample series. -/
def recC8b : DicomRecord :=
  { InstanceNumber := some 3, Modality := some "CT",
    ImageOrientationPatient := some [1, 0, 0, 0, 1, 0],
    ImagePositionPatient := some [0, 0, 0],
    Rows := some 512, Columns := some 512, PixelSpacing := some [1, 1] }

/-- Slice 4 of the C8 counterexample series, one unit above slice 3. -/
def recC8c : DicomRecord :=
  { recC8b with
    InstanceNumber := some 4
    ImagePositionPatient := some [0, 0, 1] }

/-- A CT series with sorted instance indices 1, 3, 4 (a gap between 1 and 3)
whose first slice is discarded by the degenerate-orientation rule, after
which reconstruction succeeds. -/
def exC8 : List (ℕ × DicomRecord) := [(0, recC8a), (1, recC8b), (2, recC8c)]

/-- Projection used to state reconstruction results compactly. -/
def chiralityOf (e : Except PyErr RecInfo) : Option (Option ℤ) :=
  match e with
  | .ok r => some r.chirality
  | .error _ => none

/-- A two-slice CT series with instance indices 1 and 3 (a gap) and
non-degenerate orientations, used to witness the amended index-jump claim. -/
def exC8w : List (ℕ × DicomRecord) :=
  [(0, recC8b), (1, { recC8b with InstanceNumber := some 1, ImagePositionPatient := some [0, 0, 1] })]

/-- A record with neither a VOI LUT sequence nor a window center, but with
`BitsStored = 12` so that the bit-depth-derived default window
`(2^11, 2^12)` is used. -/
def recC2 : DicomRecord := { BitsStored := some 12 }

/-- A one-pixel `int64` test image with value 4000. -/
def imgC2 : NPArray := ⟨DType.int64, [4000]⟩

/-- The `YBR_RCT` encoding of the RGB pixel `(1, 2, 3)`:
`Y = 2, Cb = 1, Cr = -1`, stored as an `int16` image of one pixel. -/
def imgC4 : NPImage := ⟨DType.int16, 3, [[2, 1, -1]]⟩

/-- The full per-element float path of the LINEAR VOI windowing law: the
`np.where` chain followed by the clip to `[0, depth-1]` (everything
`window_linear_trans` computes before the final dtype cast). -/
def window_linear_full (window_center window_width : ℚ) (depth : ℤ) (v : ℚ) : ℚ :=
  clipQ 0 ((depth : ℚ) - 1) (window_linear_map window_center window_width depth v)

/-- The full per-element float path of the LINEAR_EXACT VOI windowing law. -/
def window_linear_exact_full (window_center window_width : ℚ) (depth : ℤ) (v : ℚ) : ℚ :=
  clipQ 0 ((depth : ℚ) - 1) (window_linear_exact_map window_center window_width depth v)

/-- `depth - 1` is representable in the given dtype (trivially so for
`float64`), so the cast back after clamping cannot wrap. -/
def depthFits (dt : DType) (d : ℤ) : Prop :=
  dt = DType.float64 ∨ d - 1 ≤ dtypeMax dt

/-- A registry over `ℕ` handlers with mode `"X"` bound to handler `7`,
used to witness the registration claim. -/
def regC9 : TransRegistry ℕ := ⟨[("X", 7)], [("X", false)], [("X", false)]⟩

/-! ## Helper lemmas -/

theorem pyDictGet_map_update {κ β : Type} [DecidableEq κ] (m : List (κ × β))
    (k : κ) (v : β) (h : m.any (fun p => p.1 = k) = true) :
    pyDictGet (m.map (fun p => if p.1 = k then (k, v) else p)) k = some v := by
  induction m with
  | nil => simp at h
  | cons a m ih =>
    by_cases ha : a.1 = k
    · simp [pyDictGet, ha]
    · have h' : m.any (fun p => p.1 = k) = true := by simpa [ha] using h
      have := ih h'
      simpa [pyDictGet, ha] using this

theorem pyDictGet_append_fresh {κ β : Type} [DecidableEq κ] (m : List (κ × β))
    (k : κ) (v : β) (h : m.any (fun p => p.1 = k) = false) :
    pyDictGet (m ++ [(k, v)]) k = some v := by
  induction m with
  | nil => simp [pyDictGet]
  | cons a m ih =>
    have ha : ¬ (a.1 = k) := by
      intro hk
      simp [hk] at h
    have h' : m.any (fun p => p.1 = k) = false := by
      simpa [ha] using h
    have := ih h'
    simpa [pyDictGet, ha] using this

theorem any_key_of_pyDictGet_some {κ β : Type} [DecidableEq κ]
    {m : List (κ × β)} {k : κ} {g : β} (h : pyDictGet m k = some g) :
    m.any (fun p => p.1 = k) = true := by
  unfold pyDictGet at h
  cases hf : m.find? (fun p => decide (p.1 = k)) with
  | none => rw [hf] at h; simp at h
  | some q =>
    have hq := List.find?_some hf
    exact List.any_eq_true.mpr ⟨q, List.mem_of_find?_eq_some hf, hq⟩

theorem any_key_of_pyDictGet_none {κ β : Type} [DecidableEq κ]
    {m : List (κ × β)} {k : κ} (h : pyDictGet m k = none) :
    m.any (fun p => p.1 = k) = false := by
  unfold pyDictGet at h
  cases hf : m.find? (fun p => decide (p.1 = k)) with
  | none =>
    rw [List.find?_eq_none] at hf
    simpa using fun x hx => hf x hx
  | some q => rw [hf] at h; simp at h

theorem pyDictGet_set_self {κ β : Type} [DecidableEq κ] (m : List (κ × β))
    (k : κ) (v : β) : pyDictGet (pyDictSet m k v) k = some v := by
  unfold pyDictSet
  by_cases h : m.any (fun p => p.1 = k) = true
  · rw [if_pos h]
    exact pyDictGet_map_update m k v h
  · rw [if_neg h]
    exact pyDictGet_append_fresh m k v (Bool.eq_false_iff.mpr h)

/-! ## Claim theorems -/

/-- C1: for the CT series `exC1`, accepted by `reconstruct_series`, in which
no valid consecutive slice pair exists (the single pair has zero
displacement and is skipped with a warning), the returned chirality is
`-1`, not the undefined value `none` claimed by the spec and by the
source's own `RecInfo` docstring: the source sets `chirality = None` and
then maps it through `1 if chirality else -1`. -/
theorem C1_no_valid_pair_chirality_is_minus_one :
    chiralityOf (reconstruct_series exC1 none) = some (some (-1)) ∧
    chiralityOf (reconstruct_series exC1 none) ≠ some none := by
  constructor
  · with_unfolding_all rfl
  · intro h
    rw [show chiralityOf (reconstruct_series exC1 none) = some (some (-1)) from by
      with_unfolding_all rfl] at h
    exact Option.noConfusion (Option.some.inj h)

/-- C3: calling the orchestrator `dcmtrans` with `window = None` raises
`TypeError` while iterating over `None` (the claim and the in-repo caller
`volume.py` expect a single pass with no VOI/PI applied); and with the
window argument left at its default `('default',)`, the VOI stage *is*
applied (here LINEAR windowing with the bit-depth default window maps the
modality-stage output 4000 to 249). -/
theorem C3_none_window_raises_type_error :
    dcmtrans (fun q => q) {} ⟨DType.int64, [0]⟩ 256 none
      = .error (.typeError "argument of type NoneType is not iterable") ∧
    dcmtrans (fun q => q) recC2 imgC2 256 (some [.str "default"])
      = .ok ([some ⟨DType.int64, [249]⟩], [none],
             ⟨none, none, some "LINEAR", none⟩) := by
  exact ⟨by with_unfolding_all rfl, by with_unfolding_all rfl⟩

/-- C4: the `YBR_RCT` round trip fails on the RGB pixel `(1, 2, 3)`: its
forward encoding is `(Y, Cb, Cr) = (2, 1, -1)`, and `pi_ybr_rct` decodes
that to the channel triple `(2, 1, 3)` — the values `G, R, B` stacked in
the wrong order — instead of `(1, 2, 3)`. -/
theorem C4_ybr_rct_round_trip_permutes_channels :
    ybr_rct_encode_spec 1 2 3 = (2, 1, -1) ∧
    pi_ybr_rct {} imgC4 256 = .ok ⟨DType.int16, 3, [[2, 1, 3]]⟩ ∧
    ([[2, 1, 3]] : List (List ℚ)) ≠ [[1, 2, 3]] := by
  refine ⟨by with_unfolding_all rfl, by with_unfolding_all rfl, ?_⟩
  intro h
  simp only [List.cons.injEq, and_true] at h
  norm_num at h

/-- C8 counterexample: the series `exC8` has sorted instance indices
`[1, 3, 4]` — a gap between 1 and 3 — yet `reconstruct_series` succeeds,
because the leading-slice discard of `_recon_ct` step 2 removes instance 1
before the walk checks consecutive indices. -/
theorem C8_counterexample_gap_healed_by_discard :
    origSortedIndices exC8 = [1, 3, 4] ∧
    chiralityOf (reconstruct_series exC8 none) = some (some 1) := by
  exact ⟨by with_unfolding_all rfl, by with_unfolding_all rfl⟩

/-- C10: on the empty slice mapping with no modality override,
`reconstruct_series` fails with an unstructured `IndexError` from
`mod_list[0]`, before any structured `'No instance was found'` check; the
structured empty-series error appears only once a modality is supplied. -/
theorem C10_empty_mapping_index_error :
    reconstruct_series ([] : List (ℕ × DicomRecord)) none
      = .error (.indexError "list index out of range") ∧
    reconstruct_series [] (some "CR")
      = .error (.assertionError [.text "No instance was found"]) ∧
    reconstruct_series [] (some "DX")
      = .error (.assertionError [.text "No instance was found"]) := by
  exact ⟨by with_unfolding_all rfl, by with_unfolding_all rfl, by with_unfolding_all rfl⟩

/-- C2 counterexample: a record with neither a VOI LUT sequence nor a
window-center attribute is classified `LINEAR`, not unclassified, and the
VOI stage applies LINEAR windowing (mapping 4000 to 249 under the
bit-depth default window) rather than the identity transform. -/
theorem C2_counterexample_classifier_returns_linear :
    recC2.VOILUTSequence = none ∧ recC2.WindowCenter = none ∧
    voi_get_mode recC2 = some "LINEAR" ∧
    voi_trans (fun q => q) recC2 imgC2 256 (.str "default") none
      = (some "LINEAR", .ok ⟨DType.int64, [249]⟩) ∧
    (⟨DType.int64, [249]⟩ : NPArray) ≠ do_nothing imgC2 := by
  refine ⟨rfl, rfl, by with_unfolding_all rfl, by with_unfolding_all rfl, ?_⟩
  intro h
  have hdata : ([249] : List ℚ) = [4000] := congrArg NPArray.data h
  simp only [List.cons.injEq, and_true] at hdata
  norm_num at hdata

/-- C5 counterexample: `window_sigmoid_trans` returns a `float64` array for
an `int16` input — the SIGMOID algorithm never casts back to the input
dtype (and never clips), refuting the claim for the SIGMOID case. -/
theorem C5_counterexample_sigmoid_keeps_float64 :
    (window_sigmoid_trans (fun q => q) ⟨DType.int16, [0]⟩ 0 1 256).dtype
      = DType.float64 ∧
    DType.float64 ≠ DType.int16 := by
  exact ⟨rfl, by decide⟩

/-- C2 (amended): a record with neither a VOI LUT sequence nor a
window-center attribute is classified `LINEAR` by the VOI classifier, and the
VOI stage dispatches to the LINEAR windowing handler (not the identity). -/
theorem C2_amended_no_window_center_classified_linear
    (r : DicomRecord) (h1 : r.VOILUTSequence = none) (h2 : r.WindowCenter = none) :
    voi_get_mode r = some "LINEAR" ∧
    ∀ (expf : ℚ → ℚ) (img : NPArray) (d : ℤ) (w : WindowArg) (u : Option String),
      voi_trans expf r img d w u = (some "LINEAR", voi_linear_trans r img d w u) := by
  have hm : voi_get_mode r = some "LINEAR" := by
    unfold voi_get_mode
    rw [h1, h2]
    simp
  refine ⟨hm, fun expf img d w u => ?_⟩
  unfold voi_trans
  rw [hm]
  with_unfolding_all rfl

/-- Witness for C2 (amended) at the concrete record `recC2`. -/
theorem C2_amended_witness :
    voi_get_mode recC2 = some "LINEAR" ∧
    voi_trans (fun q => q) recC2 imgC2 256 (.str "default") none
      = (some "LINEAR", voi_linear_trans recC2 imgC2 256 (.str "default") none) :=
  ⟨(C2_amended_no_window_center_classified_linear recC2 rfl rfl).1,
   (C2_amended_no_window_center_classified_linear recC2 rfl rfl).2
     (fun q => q) imgC2 256 (.str "default") none⟩

/-- C9: registering an already-registered mode without `skip_if_exists`
overwrites the stored handler; with `skip_if_exists = true` the registry is
unchanged (the original handler is retained); registering a fresh mode
stores the given handler (for either value of the flag). -/
theorem C9_register_overwrite_skip_fresh {α : Type} (reg : TransRegistry α)
    (mode : String) (rF eF : Bool) (f g : α) :
    (pyDictGet reg.collection mode = some g →
      pyDictGet (registryRegister reg mode rF false eF f).1.collection mode = some f ∧
      (registryRegister reg mode rF true eF f).1 = reg) ∧
    (pyDictGet reg.collection mode = none →
      ∀ skipFlag : Bool,
        pyDictGet (registryRegister reg mode rF skipFlag eF f).1.collection mode = some f) := by
  constructor
  · intro h
    have hsome : (pyDictGet reg.collection mode).isSome = true := by
      rw [h]; rfl
    constructor
    · unfold registryRegister
      rw [if_pos hsome]
      simpa using pyDictGet_set_self reg.collection mode f
    · unfold registryRegister
      rw [if_pos hsome]
      rfl
  · intro h skipFlag
    have hnone : ¬ ((pyDictGet reg.collection mode).isSome = true) := by
      rw [h]; simp
    unfold registryRegister
    rw [if_neg hnone]
    simpa using pyDictGet_set_self reg.collection mode f

/-- Witness for C9 on the concrete registry `regC9`: overwriting mode `"X"`
(handler 7) with handler 9, skipping on `"X"`, and fresh registration of
`"Y"`. -/
theorem C9_witness :
    pyDictGet (registryRegister regC9 "X" false false false 9).1.collection "X" = some 9 ∧
    (registryRegister regC9 "X" false true false 9).1 = regC9 ∧
    pyDictGet (registryRegister regC9 "Y" false false false 5).1.collection "Y" = some 5 :=
  ⟨((C9_register_overwrite_skip_fresh regC9 "X" false false 9 7).1 (by rfl)).1,
   ((C9_register_overwrite_skip_fresh regC9 "X" false false 9 7).1 (by rfl)).2,
   (C9_register_overwrite_skip_fresh regC9 "Y" false false 5 5).2 (by rfl) false⟩

theorem dcmtransLoop_images_errors (expf : ℚ → ℚ) (r : DicomRecord) (timg : NPArray)
    (depth : ℤ) (unit : Option String) :
    ∀ (ws : List WindowArg) (s : LoopState),
      (dcmtransLoop expf r timg depth unit ws s).images
        = s.images ++ ws.map (fun w => (perWindow expf r timg depth unit w).1) ∧
      (dcmtransLoop expf r timg depth unit ws s).errors
        = s.errors ++ ws.map (fun w => (perWindow expf r timg depth unit w).2) := by
  intro ws
  induction ws with
  | nil => intro s; simp [dcmtransLoop]
  | cons w ws ih =>
    intro s
    rcases hv : voi_trans expf r timg depth w unit with ⟨vm, res⟩
    cases res with
    | error e =>
      have hpw : perWindow expf r timg depth unit w = (none, some e) := by
        unfold perWindow; rw [hv]
      simp only [dcmtransLoop, hv]
      obtain ⟨h1, h2⟩ := ih _
      rw [h1, h2]
      simp [hpw]
    | ok v1 =>
      have hpw : perWindow expf r timg depth unit w
          = (some (pi_trans_local r v1 depth).2, none) := by
        unfold perWindow; rw [hv]
      simp only [dcmtransLoop, hv]
      obtain ⟨h1, h2⟩ := ih _
      rw [h1, h2]
      simp [hpw]

/-- C6: with a non-empty window list and a modality stage that returns, the
orchestrator returns an image list and an error list that are the pointwise
maps of the per-window body over the window list — the same length as the
window list, in the window order, with entry `i` depending only on window
`i` — and, for every window, the image entry is `None` exactly when the
error entry is not `None`. -/
theorem C6_per_window_results_isolated
    (expf : ℚ → ℚ) (r : DicomRecord) (img : NPArray) (depth : ℤ)
    (ws : List WindowArg) (hws : ws ≠ [])
    (mm : Option String) (timg : NPArray) (unit : Option String)
    (hmod : modality_trans r img = .ok (mm, timg, unit)) :
    ∃ meta : TransMeta,
      dcmtrans expf r img depth (some ws)
        = .ok (ws.map (fun w => (perWindow expf r timg depth unit w).1),
               ws.map (fun w => (perWindow expf r timg depth unit w).2),
               meta) ∧
      (ws.map (fun w => (perWindow expf r timg depth unit w).1)).length = ws.length ∧
      (ws.map (fun w => (perWindow expf r timg depth unit w).2)).length = ws.length ∧
      ∀ w : WindowArg,
        ((perWindow expf r timg depth unit w).1 = none ↔
         (perWindow expf r timg depth unit w).2 ≠ none) := by
  have hne := hws
  refine ⟨⟨mm, unit,
      (dcmtransLoop expf r timg depth unit ws ⟨[], [], none, none⟩).voi_mode,
      (dcmtransLoop expf r timg depth unit ws ⟨[], [], none, none⟩).pi_mode⟩,
    ?_, by simp, by simp, ?_⟩
  · obtain ⟨h1, h2⟩ :=
      dcmtransLoop_images_errors expf r timg depth unit ws ⟨[], [], none, none⟩
    simp only [dcmtrans, hmod]
    rw [h1, h2]
    simp
  · intro w
    unfold perWindow
    cases hv : (voi_trans expf r timg depth w unit).2 <;> simp

/-- Witness for C6: the empty record (identity modality stage) with the
single window `'default'`. -/
theorem C6_witness :
    ([WindowArg.str "default"] : List WindowArg) ≠ [] ∧
    ∃ meta : TransMeta,
      dcmtrans (fun q => q) {} ⟨DType.int64, [0]⟩ 256 (some [.str "default"])
        = .ok ([(perWindow (fun q => q) {} ⟨DType.int64, [0]⟩ 256 none (.str "default")).1],
               [(perWindow (fun q => q) {} ⟨DType.int64, [0]⟩ 256 none (.str "default")).2],
               meta) := by
  refine ⟨by simp, ?_⟩
  obtain ⟨meta, h1, -⟩ :=
    C6_per_window_results_isolated (fun q => q) {} ⟨DType.int64, [0]⟩ 256
      [.str "default"] (by simp) none ⟨DType.int64, [0]⟩ none
      (by with_unfolding_all rfl)
  exact ⟨meta, by simpa using h1⟩

theorem clipQ_lb (dq q : ℚ) (h : 0 ≤ dq) : 0 ≤ clipQ 0 dq q :=
  le_min (le_max_right q 0) h

theorem clipQ_ub (dq q : ℚ) : clipQ 0 dq q ≤ dq := min_le_right _ _

theorem clipQ_mono (dq x y : ℚ) (h : x ≤ y) : clipQ 0 dq x ≤ clipQ 0 dq y :=
  min_le_min (max_le_max h le_rfl) le_rfl

theorem window_linear_full_spec (c w : ℚ) (d : ℤ) (hd : 2 ≤ d) (hw : 1 < w) :
    (∀ v, v ≤ c - 1/2 - (w - 1)/2 → window_linear_full c w d v = 0) ∧
    (∀ v, c - 1/2 + (w - 1)/2 < v → window_linear_full c w d v = (d : ℚ) - 1) ∧
    (∀ v, c - 1/2 - (w - 1)/2 < v → v ≤ c - 1/2 + (w - 1)/2 →
      window_linear_full c w d v
        = clipQ 0 ((d : ℚ) - 1) (((v - (c - 1/2))/(w - 1) + 1/2) * ((d : ℚ) - 1))) ∧
    (∀ v1 v2, v1 ≤ v2 → window_linear_full c w d v1 ≤ window_linear_full c w d v2) := by
  have hw' : (0 : ℚ) < w - 1 := by linarith
  have hd2 : (2 : ℚ) ≤ (d : ℚ) := by exact_mod_cast hd
  have hdq0 : (0 : ℚ) ≤ (d : ℚ) - 1 := by linarith
  have hzero : ∀ v, v ≤ c - 1/2 - (w - 1)/2 → window_linear_full c w d v = 0 := by
    intro v hv
    unfold window_linear_full window_linear_map
    rw [if_pos hv]
    unfold clipQ
    rw [max_self]
    exact min_eq_left hdq0
  have htop : ∀ v, c - 1/2 + (w - 1)/2 < v → window_linear_full c w d v = (d : ℚ) - 1 := by
    intro v hv
    have hlo : ¬ v ≤ c - 1/2 - (w - 1)/2 := by
      intro h; linarith
    unfold window_linear_full window_linear_map
    rw [if_neg hlo, if_pos hv]
    unfold clipQ
    rw [max_eq_left hdq0, min_self]
  have hmid : ∀ v, c - 1/2 - (w - 1)/2 < v → v ≤ c - 1/2 + (w - 1)/2 →
      window_linear_full c w d v
        = clipQ 0 ((d : ℚ) - 1) (((v - (c - 1/2))/(w - 1) + 1/2) * ((d : ℚ) - 1)) := by
    intro v h1 h2
    unfold window_linear_full window_linear_map
    rw [if_neg (not_le.mpr h1), if_neg (not_lt.mpr h2)]
  refine ⟨hzero, htop, hmid, ?_⟩
  intro v1 v2 h12
  by_cases h2lo : v2 ≤ c - 1/2 - (w - 1)/2
  · rw [hzero v1 (le_trans h12 h2lo), hzero v2 h2lo]
  · by_cases h1lo : v1 ≤ c - 1/2 - (w - 1)/2
    · rw [hzero v1 h1lo]
      unfold window_linear_full
      exact clipQ_lb _ _ hdq0
    · by_cases h1hi : c - 1/2 + (w - 1)/2 < v1
      · rw [htop v1 h1hi, htop v2 (lt_of_lt_of_le h1hi h12)]
      · by_cases h2hi : c - 1/2 + (w - 1)/2 < v2
        · rw [htop v2 h2hi]
          unfold window_linear_full
          exact clipQ_ub _ _
        · rw [hmid v1 (not_le.mp h1lo) (not_lt.mp h1hi),
              hmid v2 (lt_of_lt_of_le (not_le.mp h1lo) h12) (not_lt.mp h2hi)]
          apply clipQ_mono
          apply mul_le_mul_of_nonneg_right _ hdq0
          apply add_le_add_right
          exact (div_le_div_iff_of_pos_right hw').mpr (by linarith)

theorem window_linear_exact_full_spec (c w : ℚ) (d : ℤ) (hd : 2 ≤ d) (hw : 1 < w) :
    (∀ v, v ≤ c - w/2 → window_linear_exact_full c w d v = 0) ∧
    (∀ v, c + w/2 < v → window_linear_exact_full c w d v = (d : ℚ) - 1) ∧
    (∀ v, c - w/2 < v → v ≤ c + w/2 →
      window_linear_exact_full c w d v
        = clipQ 0 ((d : ℚ) - 1) ((v - c)/w * ((d : ℚ) - 1))) ∧
    (∀ v1 v2, v1 ≤ v2 →
      window_linear_exact_full c w d v1 ≤ window_linear_exact_full c w d v2) := by
  have hw' : (0 : ℚ) < w := by linarith
  have hd2 : (2 : ℚ) ≤ (d : ℚ) := by exact_mod_cast hd
  have hdq0 : (0 : ℚ) ≤ (d : ℚ) - 1 := by linarith
  have hzero : ∀ v, v ≤ c - w/2 → window_linear_exact_full c w d v = 0 := by
    intro v hv
    unfold window_linear_exact_full window_linear_exact_map
    rw [if_pos hv]
    unfold clipQ
    rw [max_self]
    exact min_eq_left hdq0
  have htop : ∀ v, c + w/2 < v → window_linear_exact_full c w d v = (d : ℚ) - 1 := by
    intro v hv
    have hlo : ¬ v ≤ c - w/2 := by intro h; linarith
    unfold window_linear_exact_full window_linear_exact_map
    rw [if_neg hlo, if_pos hv]
    unfold clipQ
    rw [max_eq_left hdq0, min_self]
  have hmid : ∀ v, c - w/2 < v → v ≤ c + w/2 →
      window_linear_exact_full c w d v
        = clipQ 0 ((d : ℚ) - 1) ((v - c)/w * ((d : ℚ) - 1)) := by
    intro v h1 h2
    unfold window_linear_exact_full window_linear_exact_map
    rw [if_neg (not_le.mpr h1), if_neg (not_lt.mpr h2)]
  refine ⟨hzero, htop, hmid, ?_⟩
  intro v1 v2 h12
  by_cases h2lo : v2 ≤ c - w/2
  · rw [hzero v1 (le_trans h12 h2lo), hzero v2 h2lo]
  · by_cases h1lo : v1 ≤ c - w/2
    · rw [hzero v1 h1lo]
      unfold window_linear_exact_full
      exact clipQ_lb _ _ hdq0
    · by_cases h1hi : c + w/2 < v1
      · rw [htop v1 h1hi, htop v2 (lt_of_lt_of_le h1hi h12)]
      · by_cases h2hi : c + w/2 < v2
        · rw [htop v2 h2hi]
          unfold window_linear_exact_full
          exact clipQ_ub _ _
        · rw [hmid v1 (not_le.mp h1lo) (not_lt.mp h1hi),
              hmid v2 (lt_of_lt_of_le (not_le.mp h1lo) h12) (not_lt.mp h2hi)]
          apply clipQ_mono
          apply mul_le_mul_of_nonneg_right _ hdq0
          exact (div_le_div_iff_of_pos_right hw').mpr (by linarith)

/-- C7: for depth ≥ 2 and width > 1, the LINEAR VOI windowing law (the float
path of `window_linear_trans`, i.e. `window_linear_full`) is monotonic
non-decreasing, constant 0 at or below `c - 0.5 - (w-1)/2`, constant `d - 1`
above `c - 0.5 + (w-1)/2`, and equal to the clamped linear formula in
between; analogously for LINEAR_EXACT with thresholds `c - w/2` and
`c + w/2`.  The last two conjuncts tie the scalar laws to the array
transforms of the source. -/
theorem C7_linear_windowing_monotone_piecewise (c w : ℚ) (d : ℤ)
    (hd : 2 ≤ d) (hw : 1 < w) :
    (∀ v1 v2, v1 ≤ v2 → window_linear_full c w d v1 ≤ window_linear_full c w d v2) ∧
    (∀ v, v ≤ c - 1/2 - (w - 1)/2 → window_linear_full c w d v = 0) ∧
    (∀ v, c - 1/2 + (w - 1)/2 < v → window_linear_full c w d v = (d : ℚ) - 1) ∧
    (∀ v, c - 1/2 - (w - 1)/2 < v → v ≤ c - 1/2 + (w - 1)/2 →
      window_linear_full c w d v
        = clipQ 0 ((d : ℚ) - 1) (((v - (c - 1/2))/(w - 1) + 1/2) * ((d : ℚ) - 1))) ∧
    (∀ v1 v2, v1 ≤ v2 →
      window_linear_exact_full c w d v1 ≤ window_linear_exact_full c w d v2) ∧
    (∀ v, v ≤ c - w/2 → window_linear_exact_full c w d v = 0) ∧
    (∀ v, c + w/2 < v → window_linear_exact_full c w d v = (d : ℚ) - 1) ∧
    (∀ v, c - w/2 < v → v ≤ c + w/2 →
      window_linear_exact_full c w d v
        = clipQ 0 ((d : ℚ) - 1) ((v - c)/w * ((d : ℚ) - 1))) ∧
    (∀ img : NPArray, (window_linear_trans img c w d).data
        = img.data.map (fun v => astype img.dtype (window_linear_full c w d v))) ∧
    (∀ img : NPArray, (window_linear_exact_trans img c w d).data
        = img.data.map (fun v => astype img.dtype (window_linear_exact_full c w d v))) := by
  obtain ⟨l0, lt, lm, lmono⟩ := window_linear_full_spec c w d hd hw
  obtain ⟨e0, et, em, emono⟩ := window_linear_exact_full_spec c w d hd hw
  exact ⟨lmono, l0, lt, lm, emono, e0, et, em, fun img => rfl, fun img => rfl⟩

/-- Witness for C7 at `c = 0`, `w = 100`, `d = 256`, evaluated at concrete
points of the three regions. -/
theorem C7_witness :
    window_linear_full 0 100 256 (-100) ≤ window_linear_full 0 100 256 50 ∧
    window_linear_full 0 100 256 (-100) = 0 ∧
    window_linear_full 0 100 256 100 = (256 : ℚ) - 1 ∧
    window_linear_exact_full 0 100 256 (-100) = 0 ∧
    window_linear_exact_full 0 100 256 100 = (256 : ℚ) - 1 :=
  ⟨(C7_linear_windowing_monotone_piecewise 0 100 256 (by norm_num) (by norm_num)).1
      (-100) 50 (by norm_num),
   (C7_linear_windowing_monotone_piecewise 0 100 256 (by norm_num) (by norm_num)).2.1
      (-100) (by norm_num),
   (C7_linear_windowing_monotone_piecewise 0 100 256 (by norm_num) (by norm_num)).2.2.1
      100 (by norm_num),
   (C7_linear_windowing_monotone_piecewise 0 100 256 (by norm_num) (by norm_num)).2.2.2.2.2.1
      (-100) (by norm_num),
   (C7_linear_windowing_monotone_piecewise 0 100 256 (by norm_num) (by norm_num)).2.2.2.2.2.2.1
      100 (by norm_num)⟩

theorem intWrap_eq_self (lo hi i : ℤ) (h1 : lo ≤ i) (h2 : i ≤ hi) :
    intWrap lo hi i = i := by
  unfold intWrap
  rw [Int.emod_eq_of_lt (by linarith) (by linarith)]
  ring

theorem astype_int_bounds_aux (lo hi d : ℤ) (q : ℚ) (hlo : lo ≤ 0)
    (h0 : 0 ≤ q) (h1 : q ≤ (d : ℚ) - 1) (hmax : d - 1 ≤ hi) :
    0 ≤ ((intWrap lo hi (pytrunc q)) : ℚ) ∧
    ((intWrap lo hi (pytrunc q)) : ℚ) ≤ (d : ℚ) - 1 := by
  have htr : pytrunc q = ⌊q⌋ := by
    unfold pytrunc
    rw [if_neg (not_lt.mpr h0)]
  have hfl0 : 0 ≤ ⌊q⌋ := Int.floor_nonneg.mpr h0
  have hflu : ⌊q⌋ ≤ d - 1 := by
    have := Int.floor_le_floor h1
    rwa [show ((d : ℚ) - 1) = ((d - 1 : ℤ) : ℚ) by push_cast; ring,
         Int.floor_intCast] at this
  rw [htr, intWrap_eq_self lo hi ⌊q⌋ (le_trans hlo hfl0) (le_trans hflu hmax)]
  constructor
  · exact_mod_cast hfl0
  · have : ((⌊q⌋ : ℤ) : ℚ) ≤ ((d - 1 : ℤ) : ℚ) := by exact_mod_cast hflu
    rwa [show ((d - 1 : ℤ) : ℚ) = (d : ℚ) - 1 by push_cast; ring] at this

theorem astype_bounds (dt : DType) (d : ℤ) (q : ℚ)
    (h0 : 0 ≤ q) (h1 : q ≤ (d : ℚ) - 1) (hfit : depthFits dt d) :
    0 ≤ astype dt q ∧ astype dt q ≤ (d : ℚ) - 1 := by
  cases dt with
  | float64 => exact ⟨h0, h1⟩
  | uint8 =>
    rcases hfit with h | h
    · exact absurd h (by decide)
    · exact astype_int_bounds_aux _ _ d q (by decide) h0 h1 h
  | int16 =>
    rcases hfit with h | h
    · exact absurd h (by decide)
    · exact astype_int_bounds_aux _ _ d q (by decide) h0 h1 h
  | uint16 =>
    rcases hfit with h | h
    · exact absurd h (by decide)
    · exact astype_int_bounds_aux _ _ d q (by decide) h0 h1 h
  | int32 =>
    rcases hfit with h | h
    · exact absurd h (by decide)
    · exact astype_int_bounds_aux _ _ d q (by decide) h0 h1 h
  | int64 =>
    rcases hfit with h | h
    · exact absurd h (by decide)
    · exact astype_int_bounds_aux _ _ d q (by decide) h0 h1 h

/-- C5 (amended): LINEAR and LINEAR_EXACT compute in float and cast back to
the input dtype only after clamping to `[0, depth-1]` — the returned array
keeps the input dtype and (whenever `1 ≤ depth` and `depth - 1` is
representable in that dtype) contains no value outside `[0, depth-1]`; the
SIGMOID algorithm instead returns the raw floating-point array (dtype
`float64`), never clamping or casting back. -/
theorem C5_amended_linear_clamped_cast_sigmoid_float :
    (∀ (img : NPArray) (c w : ℚ) (d : ℤ), 1 ≤ d → depthFits img.dtype d →
      (window_linear_trans img c w d).dtype = img.dtype ∧
      ∀ x ∈ (window_linear_trans img c w d).data, 0 ≤ x ∧ x ≤ (d : ℚ) - 1) ∧
    (∀ (img : NPArray) (c w : ℚ) (d : ℤ), 1 ≤ d → depthFits img.dtype d →
      (window_linear_exact_trans img c w d).dtype = img.dtype ∧
      ∀ x ∈ (window_linear_exact_trans img c w d).data, 0 ≤ x ∧ x ≤ (d : ℚ) - 1) ∧
    (∀ (expf : ℚ → ℚ) (img : NPArray) (c w : ℚ) (d : ℤ),
      (window_sigmoid_trans expf img c w d).dtype = DType.float64) := by
  refine ⟨?_, ?_, fun expf img c w d => rfl⟩
  · intro img c w d hd hfit
    have hdq0 : (0 : ℚ) ≤ (d : ℚ) - 1 := by
      have : (1 : ℚ) ≤ (d : ℚ) := by exact_mod_cast hd
      linarith
    refine ⟨rfl, ?_⟩
    intro x hx
    obtain ⟨v, hv, rfl⟩ := List.mem_map.mp hx
    exact astype_bounds img.dtype d _ (clipQ_lb _ _ hdq0) (clipQ_ub _ _) hfit
  · intro img c w d hd hfit
    have hdq0 : (0 : ℚ) ≤ (d : ℚ) - 1 := by
      have : (1 : ℚ) ≤ (d : ℚ) := by exact_mod_cast hd
      linarith
    refine ⟨rfl, ?_⟩
    intro x hx
    obtain ⟨v, hv, rfl⟩ := List.mem_map.mp hx
    exact astype_bounds img.dtype d _ (clipQ_lb _ _ hdq0) (clipQ_ub _ _) hfit

/-- Witness for C5 (amended): a `uint8` input at depth 256 through the two
linear transforms, and the sigmoid dtype at the same input. -/
theorem C5_amended_witness :
    (window_linear_trans ⟨DType.uint8, [500]⟩ 100 101 256).dtype = DType.uint8 ∧
    (∀ x ∈ (window_linear_trans ⟨DType.uint8, [500]⟩ 100 101 256).data,
      0 ≤ x ∧ x ≤ (256 : ℚ) - 1) ∧
    (∀ x ∈ (window_linear_exact_trans ⟨DType.uint8, [500]⟩ 100 101 256).data,
      0 ≤ x ∧ x ≤ (256 : ℚ) - 1) ∧
    (window_sigmoid_trans (fun q => q) ⟨DType.uint8, [500]⟩ 100 101 256).dtype
      = DType.float64 :=
  ⟨(C5_amended_linear_clamped_cast_sigmoid_float.1 ⟨DType.uint8, [500]⟩ 100 101 256
      (by norm_num) (Or.inr (by decide))).1,
   (C5_amended_linear_clamped_cast_sigmoid_float.1 ⟨DType.uint8, [500]⟩ 100 101 256
      (by norm_num) (Or.inr (by decide))).2,
   (C5_amended_linear_clamped_cast_sigmoid_float.2.1 ⟨DType.uint8, [500]⟩ 100 101 256
      (by norm_num) (Or.inr (by decide))).2,
   C5_amended_linear_clamped_cast_sigmoid_float.2.2 (fun q => q)
      ⟨DType.uint8, [500]⟩ 100 101 256⟩

theorem mapM_option_length {α β : Type} (f : α → Option β) :
    ∀ (l : List α) (ys : List β), l.mapM f = some ys → ys.length = l.length := by
  intro l
  induction l with
  | nil =>
    intro ys h
    simp only [List.mapM_nil, pure, Option.some.injEq] at h
    subst h; rfl
  | cons a l ih =>
    intro ys h
    rw [List.mapM_cons] at h
    cases hfa : f a with
    | none => rw [hfa] at h; simp at h
    | some y =>
      rw [hfa] at h
      cases hm : l.mapM f with
      | none => rw [hm] at h; simp at h
      | some ys' =>
        rw [hm] at h
        simp at h
        rcases h with rfl
        simp [ih ys' hm]

theorem extractIops_length {idd : List (ℤ × DicomRecord)} {il : List ℤ}
    {iops : List (List ℚ)} (h : extractIops idd il = .ok iops) :
    iops.length = il.length := by
  unfold extractIops at h
  cases hm : il.mapM (fun i => (pyDictGet idd i).bind (·.ImageOrientationPatient)) with
  | none => rw [hm] at h; exact absurd h (by simp)
  | some l =>
    rw [hm] at h
    injection h with h'
    subst h'
    exact mapM_option_length _ il _ hm

theorem extractIpps_length {idd : List (ℤ × DicomRecord)} {il : List ℤ}
    {ipps : List (List ℚ)} (h : extractIpps idd il = .ok ipps) :
    ipps.length = il.length := by
  unfold extractIpps at h
  cases hm : il.mapM (fun i => (pyDictGet idd i).bind (·.ImagePositionPatient)) with
  | none => rw [hm] at h; exact absurd h (by simp)
  | some l =>
    rw [hm] at h
    injection h with h'
    subst h'
    exact mapM_option_length _ il _ hm

theorem walkCT_cons₂ (t0 t1 : ℤ × List ℚ × List ℚ)
    (rest : List (ℤ × List ℚ × List ℚ)) :
    walkCT (t0 :: t1 :: rest) =
      match pairRes t0 t1 with
      | .jump a b => ⟨false, .indexJump a b :: (walkCT (t1 :: rest)).msgs,
                      (walkCT (t1 :: rest)).chir, (walkCT (t1 :: rest)).ssq⟩
      | .skip => walkCT (t1 :: rest)
      | .notAligned a b => ⟨false, .notAligned a b :: (walkCT (t1 :: rest)).msgs,
                            (walkCT (t1 :: rest)).chir, (walkCT (t1 :: rest)).ssq⟩
      | .good c q => ⟨(walkCT (t1 :: rest)).okay, (walkCT (t1 :: rest)).msgs,
                      c :: (walkCT (t1 :: rest)).chir, q :: (walkCT (t1 :: rest)).ssq⟩ :=
  rfl

theorem walkCT_gap :
    ∀ (ts : List (ℤ × List ℚ × List ℚ)) (n : ℕ) (a b : ℤ),
      (ts.map (fun t => t.1)).get? n = some a →
      (ts.map (fun t => t.1)).get? (n + 1) = some b →
      b - a ≠ 1 →
      (walkCT ts).okay = false ∧
        ∃ i j, RecMsg.indexJump i j ∈ (walkCT ts).msgs := by
  intro ts
  induction ts with
  | nil => intro n a b ha _ _; simp at ha
  | cons t0 rest ih =>
    cases rest with
    | nil =>
      intro n a b _ hb _
      rcases n with _ | n <;> simp at hb
    | cons t1 rest2 =>
      intro n a b ha hb hab
      cases n with
      | zero =>
        simp only [List.map_cons, List.get?_cons_zero, List.get?_cons_succ,
          Option.some.injEq] at ha hb
        have hj : pairRes t0 t1 = .jump t0.1 t1.1 := by
          unfold pairRes
          rw [if_pos]
          rw [ha, hb]
          exact hab
        rw [walkCT_cons₂, hj]
        exact ⟨rfl, t0.1, t1.1, List.mem_cons_self _ _⟩
      | succ n =>
        have ha' : ((t1 :: rest2).map (fun t => t.1)).get? n = some a := by
          simpa using ha
        have hb' : ((t1 :: rest2).map (fun t => t.1)).get? (n + 1) = some b := by
          simpa using hb
        obtain ⟨hok, i, j, hmem⟩ := ih n a b ha' hb' hab
        rw [walkCT_cons₂]
        rcases hpr : pairRes t0 t1 with ⟨p, q⟩ | _ | ⟨p, q⟩ | ⟨cflag, sq⟩
        · exact ⟨rfl, i, j, List.mem_cons_of_mem _ hmem⟩
        · exact ⟨hok, i, j, hmem⟩
        · exact ⟨rfl, i, j, List.mem_cons_of_mem _ hmem⟩
        · exact ⟨hok, i, j, hmem⟩

/-- C8 (amended): for every CT series input on which the leading-slice
discard step and the rows/columns/pixel-spacing checks and the
orientation/position extractions succeed, if the post-discard sorted index
list contains a consecutive gap then `_recon_ct` raises a structured
assertion error whose message list mentions an index jump, and no
reconstruction result is returned. -/
theorem C8_amended_gap_after_discard_raises_index_jump
    (im : List (ℤ × ℕ)) (idd : List (ℤ × DicomRecord)) (il : List ℤ)
    (im' : List (ℤ × ℕ)) (idd' : List (ℤ × DicomRecord)) (il' : List ℤ)
    (iops ipps : List (List ℚ))
    (hdisc : discardStep im idd il = .ok (im', idd', il'))
    (hsize : sizeChecks idd' = .ok ())
    (hiop : extractIops idd' il' = .ok iops)
    (hipp : extractIpps idd' il' = .ok ipps)
    (n : ℕ) (a b : ℤ)
    (ha : il'.get? n = some a) (hb : il'.get? (n + 1) = some b)
    (hab : b - a ≠ 1) :
    ∃ msgs, _recon_ct im idd il = .error (.assertionError msgs) ∧
      ∃ i j, RecMsg.indexJump i j ∈ msgs := by
  have hleni := extractIops_length hiop
  have hlenp := extractIpps_length hipp
  have hzlen : il'.length ≤ (iops.zip ipps).length := by
    rw [List.length_zip, hleni, hlenp]
    simp
  have hfst : ((il'.zip (iops.zip ipps)).map (fun t => t.1)) = il' :=
    List.map_fst_zip il' (iops.zip ipps) hzlen
  obtain ⟨hok, i, j, hmem⟩ :=
    walkCT_gap (il'.zip (iops.zip ipps)) n a b
      (by rw [hfst]; exact ha) (by rw [hfst]; exact hb) hab
  refine ⟨(walkCT (il'.zip (iops.zip ipps))).msgs, ?_, i, j, hmem⟩
  unfold _recon_ct
  rw [hdisc]
  simp only [bind, Except.bind, hsize, hiop, hipp]
  rw [if_pos hok]

/-- Witness for C8 (amended): the two-slice series `exC8w` with instance
indices 1 and 3 (no discard, geometry checks pass). -/
theorem C8_amended_witness :
    ∃ msgs,
      _recon_ct (buildIndexMap exC8w)
          (buildIndexData exC8w (buildIndexMap exC8w)) (origSortedIndices exC8w)
        = .error (.assertionError msgs) ∧
      ∃ i j, RecMsg.indexJump i j ∈ msgs :=
  C8_amended_gap_after_discard_raises_index_jump
    (buildIndexMap exC8w) (buildIndexData exC8w (buildIndexMap exC8w))
    (origSortedIndices exC8w)
    (buildIndexMap exC8w) (buildIndexData exC8w (buildIndexMap exC8w))
    (origSortedIndices exC8w)
    [[1, 0, 0, 0, 1, 0], [1, 0, 0, 0, 1, 0]] [[0, 0, 1], [0, 0, 0]]
    (by with_unfolding_all rfl) (by with_unfolding_all rfl)
    (by with_unfolding_all rfl) (by with_unfolding_all rfl)
    0 1 3 (by with_unfolding_all rfl) (by with_unfolding_all rfl) (by decide)

end Dcmtrans
